import Mathlib

/-!
Verification of the Mindycalc2 production-rate engine (`Data.py`, `Logic.py`).

The Python data model and the functions the claims touch are shallowly
embedded below.  Numbers (Python `int`/`float`) are modelled as `ℚ`;
Python `dict`s keyed by resource/unit names are modelled as insertion-ordered
association lists (`Dict` below, with CPython 3.7+ dict semantics: updating an
existing key keeps its position, a new key is appended).  Fallible Python code
(uncaught `ValueError` / `AttributeError` / `KeyError` exceptions) is modelled
with `Except Err`.  The `while` loops of `find_upgrade_path` and of
`calculate_process_inputs` are bounded by an explicit fuel parameter; on the
catalog data both loops stop long before any fuel used in the theorems runs
out.  Image paths and the `producers` lists of resources are omitted from the
model: no embedded operation reads them.
-/

/-- Insertion-ordered string-keyed association list modelling a Python dict. -/
abbrev Dict (α : Type) : Type := List (String × α)

namespace Dict

/-- Python `d[k]` / `d.get(k)`: the value at `k`, if present. -/
def get? {α : Type} (d : Dict α) (k : String) : Option α :=
  (d.find? (fun kv => kv.1 == k)).map (fun kv => kv.2)

/-- Python `d.get(k, v₀)`. -/
def getD {α : Type} (d : Dict α) (k : String) (v₀ : α) : α :=
  (d.get? k).getD v₀

/-- Python `k in d`. -/
def hasKey {α : Type} (d : Dict α) (k : String) : Bool :=
  d.any (fun kv => kv.1 == k)

/-- Python `d[k] = v`: overwrite in place if the key exists, append otherwise. -/
def setVal {α : Type} (d : Dict α) (k : String) (v : α) : Dict α :=
  if d.hasKey k then d.map (fun kv => if kv.1 == k then (k, v) else kv)
  else d ++ [(k, v)]

end Dict

/-- The exceptions the embedded code can raise.  Python raises `ValueError`
with distinct messages for the lookup failures; the variants keep the
distinguishing data instead of the message text.  `attributeError` models an
uncaught `AttributeError` (an attribute access on `None`), `keyError` an
uncaught dict `KeyError`, `typeError` tuple-unpacking of a non-tuple, and
`fuelExhausted` marks that the model's loop bound was hit (never on the
catalog data with the fuel used here). -/
inductive Err : Type
  | resourceNotFound (name : String)
  | unitNotFound (name : String)
  | blockNotFound (name : String)
  | multipleOutputs (factory : String)
  | notProducedBy (resource factory : String)
  | attributeError
  | keyError (key : String)
  | typeError
  | fuelExhausted
deriving DecidableEq

/-- The heat-scaling expression strings of the catalog, all of the form
`heat / c` (`'heat / 10'`, `'heat/10'`, `'heat/8'`, `'heat / 72'`); the model
replaces the Python `eval` with this closed form. -/
inductive HeatExpr : Type
  | heatDiv (c : ℚ)
deriving DecidableEq

/-- Evaluation of a heat-scaling expression with `heat` bound. -/
def evalHeat : HeatExpr → ℚ → ℚ
  | .heatDiv c, heat => heat / c

/-- A resource catalog record (`Data.Item` / `Data.Fluid`).  `planet` is the
`Planet` enum value (0 = Serpulo, 1 = Erekir).  The `producers` list and the
image path are omitted: nothing embedded here reads them. -/
inductive Resource : Type
  | item (name : String) (planet : ℕ) (isOre : Bool) (allDrills : Bool)
  | fluid (name : String) (planet : ℕ) (isGas : Bool) (allPumps : Bool)
deriving DecidableEq

/-- The `name` attribute of a resource. -/
def Resource.name : Resource → String
  | .item n _ _ _ => n
  | .fluid n _ _ _ => n

/-- The `planet` attribute of a resource. -/
def Resource.planet : Resource → ℕ
  | .item _ p _ _ => p
  | .fluid _ p _ _ => p

/-- Whether the record is a `Data.Item` (vs a `Data.Fluid`). -/
def Resource.isItem : Resource → Bool
  | .item _ _ _ _ => true
  | .fluid _ _ _ _ => false

/-- A unit record (`Data.Unit`), minus the image path. -/
structure UnitData : Type where
  name : String
  planet : ℕ
deriving DecidableEq

/-- One value of a turret's `ammo` dict: fluid-ammo turrets store a bare
number, item-ammo turrets store a `(rate multiplier, ammo per item)` tuple. -/
inductive AmmoEntry : Type
  | flat (q : ℚ)
  | pair (rateMult ammoPer : ℚ)
deriving DecidableEq

/-- A turret record (`Data.Turret`) after its constructor ran: for a
fluid-ammo turret the constructor stores `coolant = None` and `fluids = {}`,
and `ammo or {}` turns a missing ammo table into the empty dict. -/
structure TurretData : Type where
  name : String
  planet : ℕ
  reloadTime : ℚ
  burst : ℚ
  intraBurstDelay : ℚ
  isFluidAmmo : Bool
  coolant : Option (Dict (ℚ × ℚ))
  fluids : Option (Dict ℚ)
  ammo : Dict AmmoEntry
  ammoUse : ℚ
  power : ℚ
  consumeAmmoOnce : Bool
  heatScaling : Option (ℚ × HeatExpr)
deriving DecidableEq

/-- A pump record (`Data.Pump`). -/
structure PumpData : Type where
  name : String
  planet : ℕ
  pSpeed : ℚ
  power : ℚ
  inputs : Option (Dict ℚ)
deriving DecidableEq

/-- A generator's recipe field: one recipe, or a list of recipe variants
(`multiRecipes`). -/
inductive RecipeSpec : Type
  | one (d : Dict ℚ)
  | many (l : List (Dict ℚ))
deriving DecidableEq

/-- A generator record (`Data.Generator`). -/
structure GenData : Type where
  name : String
  planet : ℕ
  multiRecipes : Bool
  inputs : RecipeSpec
  outputs : RecipeSpec
  prodTime : ℚ
  power : ℚ
deriving DecidableEq

/-- A factory record (`Data.Factory`); `Data.Drill` reuses this shape with
its drillables as `outputs` and the fixed cycle reference `time = 60`. -/
structure FactoryData : Type where
  name : String
  planet : ℕ
  power : ℚ
  inputs : Dict ℚ
  outputs : Dict ℚ
  time : ℚ
  heatScaling : Option (ℚ × HeatExpr)
deriving DecidableEq

/-- A unit factory's `time` field: one shared build time, or a per-unit-name
table. -/
inductive TimeSpec : Type
  | same (t : ℚ)
  | per (d : Dict ℚ)
deriving DecidableEq

/-- A unit-factory record (`Data.UnitFactory`).  A `trees` value of `none`
marks a T1 (root) unit. -/
structure UFData : Type where
  name : String
  planet : ℕ
  power : ℚ
  trees : Dict (Option String)
  recipes : Dict (Dict ℚ)
  time : TimeSpec
deriving DecidableEq

/-- One entry of the heterogeneous `Data.blocks` list. -/
inductive Block : Type
  | simple (name : String) (planet : ℕ) (power : ℚ)
  | pump (p : PumpData)
  | turret (t : TurretData)
  | generator (g : GenData)
  | factory (f : FactoryData)
  | drill (f : FactoryData) (coolant : Option (String × ℚ × ℚ))
  | unitFactory (u : UFData)
deriving DecidableEq

/-- The three read-only catalogs the `Data` module exposes as globals. -/
structure Catalog : Type where
  blocks : List Block
  resources : List Resource
  units : List UnitData
deriving DecidableEq

/-- The `Data.Turret` constructor: for fluid-ammo turrets `coolant` is
dropped and `fluids` is replaced by the empty dict; a missing ammo table
becomes the empty dict (`ammo or {}`).  Arguments follow the Python
constructor's order (image path omitted). -/
def mkTurret (name : String) (planet : ℕ) (reloadTime burst intraBurstDelay : ℚ)
    (isFluidAmmo : Bool) (coolant : Option (Dict (ℚ × ℚ))) (fluids : Option (Dict ℚ))
    (ammo : Option (Dict AmmoEntry)) (ammoUse power : ℚ) (consumeAmmoOnce : Bool)
    (heatScaling : Option (ℚ × HeatExpr)) : TurretData :=
  { name := name, planet := planet, reloadTime := reloadTime, burst := burst,
    intraBurstDelay := intraBurstDelay, isFluidAmmo := isFluidAmmo,
    coolant := if isFluidAmmo then none else coolant,
    fluids := if isFluidAmmo then some [] else fluids,
    ammo := ammo.getD [], ammoUse := ammoUse, power := power,
    consumeAmmoOnce := consumeAmmoOnce, heatScaling := heatScaling }

/-- The `Data.Factory` constructor (image path omitted). -/
def mkFactory (name : String) (planet : ℕ) (power : ℚ) (inputs outputs : Dict ℚ)
    (time : ℚ) (heatScaling : Option (ℚ × HeatExpr)) : FactoryData :=
  { name := name, planet := planet, power := power, inputs := inputs,
    outputs := outputs, time := time, heatScaling := heatScaling }

/-- The `Data.Drill` constructor: a factory whose outputs are the drillables
and whose cycle reference is the fixed `60`. -/
def mkDrill (name : String) (planet : ℕ) (power : ℚ) (inputs drillables : Dict ℚ)
    (coolant : Option (String × ℚ × ℚ)) : Block :=
  .drill (mkFactory name planet power inputs drillables 60 none) coolant

/-- The `Data.Generator` constructor (image path omitted). -/
def mkGenerator (name : String) (planet : ℕ) (multiRecipes : Bool)
    (inputs outputs : RecipeSpec) (prodTime powerIn : ℚ) : GenData :=
  { name := name, planet := planet, multiRecipes := multiRecipes,
    inputs := inputs, outputs := outputs, prodTime := prodTime, power := powerIn }

/-- The `Data.UnitFactory` constructor (image path omitted). -/
def mkUnitFactory (name : String) (planet : ℕ) (power : ℚ)
    (trees : Dict (Option String)) (recipes : Dict (Dict ℚ)) (time : TimeSpec) :
    UFData :=
  { name := name, planet := planet, power := power, trees := trees,
    recipes := recipes, time := time }

namespace Data

/-- The Duo turret entry of `Data.blocks`. -/
def duo : TurretData :=
  mkTurret "Duo" 0 20 1 0 false
    (some [("Water", (6.0, 1.2)), ("Cryofluid", (6.0, 1.45))]) none
    (some [("Copper", .pair 1.0 2), ("Graphite", .pair 0.6 4),
      ("Silicon", .pair 1.5 5)]) 1 0 true none

/-- The Afflict turret entry of `Data.blocks` (heat scaling `(2.0, 'heat / 10')`). -/
def afflict : TurretData :=
  mkTurret "Afflict" 1 100 1 0 false none none none 1 300 true
    (some (2.0, .heatDiv 10))

/-- The Spore Press entry of `Data.blocks`. -/
def sporePress : FactoryData :=
  mkFactory "Spore Press" 0 42 [("Spore pod", 1)] [("Oil", 18)] 20 none

/-- The Electric Heater entry of `Data.blocks` (sole output `'Heat'`). -/
def electricHeater : FactoryData :=
  mkFactory "Electric Heater" 0 100 [] [("Heat", 3)] 60 none

/-- The Ground Factory entry of `Data.blocks` (builds the root unit Dagger
in 15 s). -/
def groundFactory : UFData :=
  mkUnitFactory "Ground Factory" 0 72
    [("Dagger", none), ("Nova", none), ("Crawler", none)]
    [("Dagger", [("Silicon", 10), ("Lead", 10)]),
     ("Nova", [("Silicon", 30), ("Titanium", 20), ("Lead", 20)]),
     ("Crawler", [("Silicon", 8), ("Coal", 10)])]
    (.per [("Dagger", 15), ("Nova", 40), ("Crawler", 10)])

/-- The Tank Assembler entry of `Data.blocks` (Vanquish consumes Stell units
and `'Large Tungsten Wall'`, a block name absent from both catalogs). -/
def tankAssembler : UFData :=
  mkUnitFactory "Tank Assembler" 1 180
    [("Vanquish", none), ("Conquer", none)]
    [("Vanquish", [("Stell", 4), ("Large Tungsten Wall", 10), ("Cyanogen", 9)]),
     ("Conquer", [("Locus", 6), ("Large Carbide Wall", 20), ("Cyanogen", 9)])]
    (.per [("Vanquish", 50), ("Conquer", 180)])

/-- Segment of `Data.blocks` (turret and pump entries); the list is split only to keep
elaboration fast, `blocks` below is the concatenation in source order. -/
def blocksA : List Block := [
  .turret duo,
  .turret (mkTurret "Scatter" 0 18 2 5 false
    (some [("Water", (12.0, 1.4)), ("Cryofluid", (12.0, 1.9))]) none
    (some [("Scrap", .pair 0.5 5), ("Lead", .pair 1.0 4),
      ("Metaglass", .pair 0.8 5)]) 1 0 true none),
  .turret (mkTurret "Scorch" 0 6 1 0 false
    (some [("Water", (6.0, 1.06)), ("Cryofluid", (6.0, 1.135))]) none
    (some [("Coal", .pair 1.0 3), ("Pyratite", .pair 1.0 6)]) 1 0 true none),
  .turret (mkTurret "Hail" 0 60 1 0 false
    (some [("Water", (6.0, 1.2)), ("Cryofluid", (6.0, 1.45))]) none
    (some [("Graphite", .pair 1.0 2), ("Silicon", .pair 1.2 3),
      ("Pyratite", .pair 1.0 4)]) 1 0 true none),
  .turret (mkTurret "Wave" 0 3 1 0 true none
    (some [("Water", 20), ("Cryofluid", 20), ("Slag", 20), ("Oil", 20)])
    none 1 0 true none),
  .turret (mkTurret "Arc" 0 35 1 0 false
    (some [("Water", (6.0, 1.2)), ("Cryofluid", (6.0, 1.45))]) none
    none 1 198 true none),
  .turret (mkTurret "Lancer" 0 80 1 0 false
    (some [("Water", (12.0, 1.4)), ("Cryofluid", (12.0, 1.9))]) none
    none 1 360 true none),
  .turret (mkTurret "Parallax" 0 0 1 0 false none none none 1 198 true none),
  .turret (mkTurret "Swarmer" 0 30 4 5 false
    (some [("Water", (18.0, 1.6)), ("Cryofluid", (18.0, 2.35))]) none
    (some [("Blast compound", .pair 1.0 5), ("Pyratite", .pair 1.0 5),
      ("Surge alloy", .pair 1.0 4)]) 1 0 false none),
  .turret (mkTurret "Salvo" 0 31 4 3 false
    (some [("Water", (12.0, 1.4)), ("Cryofluid", (12.0, 1.9))]) none
    (some [("Copper", .pair 1.0 2), ("Graphite", .pair 0.6 4),
      ("Pyratite", .pair 1.0 5), ("Silicon", .pair 1.5 5),
      ("Thorium", .pair 1.0 4)]) 1 0 false none),
  .turret (mkTurret "Segment" 0 8 1 0 false none none none 1 480 true none),
  .turret (mkTurret "Tsunami" 0 3 2 0 true none none
    (some [("Water", .flat 50), ("Cryofluid", .flat 50), ("Slag", .flat 50),
      ("Oil", .flat 50)]) 1 0 true none),
  .turret (mkTurret "Fuse" 0 35 3 0 false
    (some [("Water", (18.0, 1.6)), ("Cryofluid", (18.0, 2.35))]) none
    (some [("Titanium", .pair 1.3 4), ("Thorium", .pair 1.0 5)]) 1 0 true none),
  .turret (mkTurret "Ripple" 0 60 4 0 false
    (some [("Water", (18.0, 1.6)), ("Cryofluid", (18.0, 2.35))]) none
    (some [("Graphite", .pair 1.0 2), ("Silicon", .pair 1.2 3),
      ("Pyratite", .pair 1.0 4), ("Blast compound", .pair 1.0 4),
      ("Plastanium", .pair 1.0 2)]) 1 0 true none),
  .turret (mkTurret "Cyclone" 0 8 1 0 false
    (some [("Water", (18.0, 1.6)), ("Cryofluid", (18.0, 2.35))]) none
    (some [("Metaglass", .pair 0.8 2), ("Blast compound", .pair 1.0 5),
      ("Plastanium", .pair 1.0 4), ("Surge alloy", .pair 1.0 5)]) 1 0 true none),
  .turret (mkTurret "Foreshadow" 0 200 1 0 false
    (some [("Water", (60.0, 1.16)), ("Cryofluid", (60.0, 1.36))]) none
    (some [("Surge Alloy", .pair 1.0 1)]) 5 600 true none),
  .turret (mkTurret "Spectre" 0 7 1 0 false
    (some [("Water", (60.0, 1.2)), ("Cryofluid", (60.0, 1.45))]) none
    (some [("Graphite", .pair 1.7 4), ("Thorium", .pair 1.0 2),
      ("Pyratite", .pair 1.0 3)]) 1 0 true none),
  .turret (mkTurret "Meltdown" 0 90 1 0 false
    (some [("Water", (30.0, 1.0)), ("Cryofluid", (30.0, 2.25))]) none
    none 1 1020 true none),
  .turret (mkTurret "Breach" 1 40 1 0 false
    (some [("Water", (15.0, 2.5))]) none
    (some [("Beryllium", .pair 1 1), ("Tungsten", .pair 1 1),
      ("Carbide", .pair 0.2 2)]) 2 0 true none),
  .turret (mkTurret "Diffuse" 1 30 15 0 false
    (some [("Water", (15.0, 2.5))]) none
    (some [("Graphite", .pair 1 1), ("Silicon", .pair 1 1),
      ("Oxide", .pair 1 2)]) 3 0 true none),
  .turret (mkTurret "Sublimate" 1 0 1 0 true none
    (some [("Ozone", 15), ("Cyanogen", 10)]) none 1 0 true none),
  .turret (mkTurret "Titan" 1 138 1 0 false
    (some [("Water", (30, 1.3))]) (some [("Hydrogen", 5)])
    (some [("Thorium", .pair 1 1), ("Oxide", .pair 0.65 1),
      ("Carbide", .pair 0.8 1)]) 4 0 true none),
  .turret (mkTurret "Disperse" 1 9 4 0 false
    (some [("Water", (20, 1.8333))]) none
    (some [("Tungsten", .pair 1 3), ("Thorium", .pair 0.85 1),
      ("Silicon", .pair 1 4), ("Surge alloy", .pair 0.75 3)]) 1 0 true none),
  .turret afflict,
  .turret (mkTurret "Lustre" 1 0 1 0 true none none
    (some [("Nitrogen", .flat 6)]) 1 1 true none),
  .turret (mkTurret "Scathe" 1 600 1 0 false
    (some [("Water", (15, 2.5))]) none
    (some [("Carbide", .pair 1 1), ("Phase fabric", .pair 0.8 3),
      ("Surge alloy", .pair 0.9 1)]) 15 0 true none),
  .turret (mkTurret "Smite" 1 100 10 0 false
    (some [("Water", (15, 2.5))]) none
    (some [("Surge alloy", .pair 1 1)]) 2 0 true none),
  .turret (mkTurret "Malign" 1 7 1 0 false none none none 1 2400 true
    (some (2.0, .heatDiv 72))),
  .pump { name := "Mechanical pump", planet := 0, pSpeed := 7, power := 0,
          inputs := none },
  .pump { name := "Rotary pump", planet := 0, pSpeed := 48, power := 18,
          inputs := none },
  .pump { name := "Impulse pump", planet := 0, pSpeed := 118, power := 78,
          inputs := none },
  .pump { name := "Reinforced Pump", planet := 1, pSpeed := 80, power := 0,
          inputs := some [("Hydrogen", 1.5)] }]

/-- Segment of `Data.blocks` (item-production factory entries); the list is split only to keep
elaboration fast, `blocks` below is the concatenation in source order. -/
def blocksB : List Block := [
  .factory (mkFactory "Graphite Press" 0 0 [("Coal", 2)] [("Graphite", 1)] 90 none),
  .factory (mkFactory "Multi-Press" 0 108 [("Coal", 3), ("Water", 6)]
    [("Graphite", 2)] 30 none),
  .factory (mkFactory "Silicon Smelter" 0 30 [("Coal", 2), ("Sand", 1)]
    [("Silicon", 1)] 40 none),
  .factory (mkFactory "Silicon Crucible" 0 240
    [("Coal", 6), ("Sand", 4), ("Pyratite", 1)] [("Silicon", 8)] 90 none),
  .factory (mkFactory "Kiln" 0 36 [("Lead", 1), ("Sand", 1)]
    [("Metaglass", 1)] 30 none),
  .factory (mkFactory "Plastanium Compressor" 0 180 [("Titanium", 2), ("Oil", 15)]
    [("Plastanium", 1)] 60 none),
  .factory (mkFactory "Phase Weaver" 0 300 [("Sand", 10), ("Thorium", 4)]
    [("Phase fabric", 1)] 120 none),
  .factory (mkFactory "Surge Smelter" 0 240
    [("Copper", 3), ("Lead", 4), ("Titanium", 2), ("Silicon", 3)]
    [("Surge alloy", 1)] 75 none),
  .factory (mkFactory "Cryofluid Mixer" 0 60 [("Titanium", 1), ("Water", 12)]
    [("Cryofluid", 12)] 120 none),
  .factory (mkFactory "Pyratite Mixer" 0 12
    [("Sand", 2), ("Coal", 1), ("Lead", 2)] [("Pyratite", 1)] 80 none),
  .factory (mkFactory "Blast Mixer" 0 24 [("Pyratite", 1), ("Spore Pod", 1)]
    [("Blast compound", 1)] 80 none),
  .factory (mkFactory "Melter" 0 60 [("Scarp", 1)] [("Slag", 12)] 10 none),
  .factory (mkFactory "Separator" 0 60 [("Slag", 4)]
    [("Copper", 5/12), ("Lead", 1/4), ("Graphite", 1/6), ("Titanium", 1/6)]
    35 none),
  .factory (mkFactory "Disassembler" 0 240 [("Slag", 7.2), ("Scrap", 1)]
    [("Graphite", 0.2), ("Sand", 0.4), ("Titanium", 0.2), ("Thorium", 0.2)]
    30 none),
  .factory sporePress,
  .factory (mkFactory "Pulverizer" 0 30 [("Scrap", 1)] [("Sand", 1)] 40 none),
  .factory (mkFactory "Coal Centrifuge" 0 42 [("Oil", 6)] [("Coal", 1)] 30 none),
  .factory (mkFactory "Silicon Arc Furnace" 1 300 [("Sand", 4), ("Graphite", 1)]
    [("Silicon", 4)] 50 none),
  .factory (mkFactory "Electrolyzer" 1 60 [("Water", 10)]
    [("Hydrogen", 6), ("Ozone", 4)] 10 none),
  .factory (mkFactory "Atmospheric Concentrator" 1 120 [("Heat", 6)]
    [("Nitrogen", 4)] 80 none),
  .factory (mkFactory "Oxidation Chamber" 1 30 [("Beryllium", 1), ("Ozone", 5)]
    [("Oxide", 1), ("Heat", 5)] 120 none),
  .factory electricHeater,
  .factory (mkFactory "Slag Heater" 1 0 [("Slag", 40)] [("Heat", 8)] 60 none),
  .factory (mkFactory "Phase Heater" 1 0 [("Phase fabric", 1)] [("Heat", 15)]
    960 none),
  .factory (mkFactory "Carbide Crucible" 1 120
    [("Graphite", 3), ("Tungsten", 2), ("Heat", 10)] [("Carbide", 1)] 135
    (some (4, .heatDiv 10))),
  .factory (mkFactory "Surge Crucible" 1 90
    [("Scrap", 40), ("Silicon", 1), ("Heat", 10)] [("Surge alloy", 1)] 180
    (some (4, .heatDiv 10))),
  .factory (mkFactory "Phase Synthesizer" 1 480
    [("Sand", 6), ("Thorium", 2), ("Ozone", 2), ("Heat", 8)]
    [("Phase fabric", 1)] 120 (some (4, .heatDiv 8)))]

/-- Segment of `Data.blocks` (generator and Serpulo unit-factory entries); the list is split only to keep
elaboration fast, `blocks` below is the concatenation in source order. -/
def blocksC : List Block := [
  .generator (mkGenerator "Combustion Generator" 0 true
    (.many [[("Coal", 1)], [("Spore pod", 1)], [("Pyratite", 1)],
      [("Blast compound", 1)]])
    (.many [[("Power", 60)], [("Power", 60 * 1.15)], [("Power", 60 * 1.4)],
      [("Power", 60 * 0.4)]]) 120 0),
  .generator (mkGenerator "Steam Generator" 0 true
    (.many [[("Coal", 1), ("Water", 6)], [("Spore pod", 1), ("Water", 6)],
      [("Pyratite", 1), ("Water", 6)], [("Blast compound", 1), ("Water", 6)]])
    (.many [[("Power", 330)], [("Power", 330 * 1.15)], [("Power", 330 * 1.4)],
      [("Power", 330 * 0.4)]]) 90 0),
  .generator (mkGenerator "Differential Generator" 0 false
    (.one [("Pyratite", 1), ("Cryofluid", 6)]) (.one [("Power", 1080)]) 220 0),
  .generator (mkGenerator "RTG Generator" 0 true
    (.many [[("Thorium", 1)], [("Phase fabric", 1)]])
    (.many [[("Power", 270)], [("Power", 270 * 0.6)]]) (14 * 60) 0),
  .generator (mkGenerator "Thorium Reactor" 0 false
    (.one [("Thorium", 1), ("Cryofluid", 2.4)]) (.one [("Power", 900)]) 360 0),
  .generator (mkGenerator "Impact Reactor" 0 false
    (.one [("Blast compound", 1), ("Cryofluid", 15), ("Power", 1500)])
    (.one [("Power", 7800)]) 140 0),
  .generator (mkGenerator "Turbine Condenser" 1 false (.one [])
    (.one [("Power", 180), ("Water", 5)]) 60 0),
  .generator (mkGenerator "Chemical Combustion Chamber" 1 false
    (.one [("Ozone", 2), ("Arkycite", 40)]) (.one [("Power", 550)]) 60 0),
  .generator (mkGenerator "Pyrolysis Generator" 1 false
    (.one [("Slag", 20), ("Arkycite", 40)])
    (.one [("Power", 1400), ("Water", 20)]) 60 0),
  .generator (mkGenerator "Flux Reactor" 1 false
    (.one [("Cyanogen", 9), ("Heat", 150)]) (.one [("Power", 15900)]) 60 0),
  .generator (mkGenerator "Neoplasia Reactor" 1 false
    (.one [("Phase fabric", 1), ("Arkycite", 80), ("Water", 10)])
    (.one [("Power", 8400), ("Neoplasm", 20), ("Heat", 60)]) 180 0),
  .unitFactory groundFactory,
  .unitFactory (mkUnitFactory "Air Factory" 0 72
    [("Flare", none), ("Poly", none)]
    [("Flare", [("Silicon", 15)]), ("Poly", [("Silicon", 30), ("Lead", 15)])]
    (.per [("Flare", 15), ("Poly", 35)])),
  .unitFactory (mkUnitFactory "Naval Factory" 0 72
    [("Risso", none), ("Retusa", none)]
    [("Risso", [("Silicon", 20), ("Metaglass", 35)]),
     ("Retusa", [("Silicon", 15), ("Titanium", 20)])]
    (.per [("Risso", 45), ("Retusa", 35)])),
  .unitFactory (mkUnitFactory "Additive Reconstructor" 0 180
    [("Mace", some "Dagger"), ("Pulsar", some "Nova"), ("Atrax", some "Crawler"),
     ("Horizon", some "Flare"), ("Poly", some "Mono"), ("Minke", some "Risso"),
     ("Oxynoe", some "Retusa")]
    [("Mace", [("Silicon", 40), ("Graphite", 40)]),
     ("Pulsar", [("Silicon", 40), ("Graphite", 40)]),
     ("Atrax", [("Silicon", 40), ("Graphite", 40)]),
     ("Horizon", [("Silicon", 40), ("Graphite", 40)]),
     ("Poly", [("Silicon", 40), ("Graphite", 40)]),
     ("Minke", [("Silicon", 40), ("Graphite", 40)]),
     ("Oxynoe", [("Silicon", 40), ("Graphite", 40)])]
    (.same 10)),
  .unitFactory (mkUnitFactory "Multiplicative Reconstructor" 0 360
    [("Fortress", some "Mace"), ("Quasar", some "Pulsar"),
     ("Spiroct", some "Atrax"), ("Zenith", some "Horizon"),
     ("Mega", some "Poly"), ("Bryde", some "Minke"), ("Cyerce", some "Oxynoe")]
    [("Fortress", [("Silicon", 130), ("Titanium", 80), ("Metaglass", 40)]),
     ("Quasar", [("Silicon", 130), ("Titanium", 80), ("Metaglass", 40)]),
     ("Spiroct", [("Silicon", 130), ("Titanium", 80), ("Metaglass", 40)]),
     ("Zenith", [("Silicon", 130), ("Titanium", 80), ("Metaglass", 40)]),
     ("Mega", [("Silicon", 130), ("Titanium", 80), ("Metaglass", 40)]),
     ("Bryde", [("Silicon", 130), ("Titanium", 80), ("Metaglass", 40)]),
     ("Cyerce", [("Silicon", 130), ("Titanium", 80), ("Metaglass", 40)])]
    (.same 30)),
  .unitFactory (mkUnitFactory "Exponential Reconstructor" 0 780
    [("Scepter", some "Fortress"), ("Vela", some "Quasar"),
     ("Arkyid", some "Spiroct"), ("Antumbra", some "Zenith"),
     ("Quad", some "Mega"), ("Sei", some "Bryde"), ("Aegires", some "Oxynoe")]
    [("Scepter", [("Silicon", 850), ("Titanium", 750), ("Plastanium", 650),
       ("Cryofluid", 60)]),
     ("Vela", [("Silicon", 850), ("Titanium", 750), ("Plastanium", 650),
       ("Cryofluid", 60)]),
     ("Arkyid", [("Silicon", 850), ("Titanium", 750), ("Plastanium", 650),
       ("Cryofluid", 60)]),
     ("Antumbra", [("Silicon", 850), ("Titanium", 750), ("Plastanium", 650),
       ("Cryofluid", 60)]),
     ("Quad", [("Silicon", 850), ("Titanium", 750), ("Plastanium", 650),
       ("Cryofluid", 60)]),
     ("Sei", [("Silicon", 850), ("Titanium", 750), ("Plastanium", 650),
       ("Cryofluid", 60)]),
     ("Aegires", [("Silicon", 850), ("Titanium", 750), ("Plastanium", 650),
       ("Cryofluid", 60)])]
    (.same 90)),
  .unitFactory (mkUnitFactory "Tetrative Reconstructor" 0 1500
    [("Reign", some "Scepter"), ("Corvus", some "Vela"),
     ("Toxopid", some "Arkyid"), ("Eclipse", some "Antumbra"),
     ("Oct", some "Quad"), ("Omura", some "Sei"), ("Navanax", some "Aegires")]
    [("Reign", [("Silicon", 1000), ("Plastanium", 600), ("Surge alloy", 500),
       ("Phase fabric", 350), ("Cryofluid", 180)]),
     ("Corvus", [("Silicon", 1000), ("Plastanium", 600), ("Surge alloy", 500),
       ("Phase fabric", 350), ("Cryofluid", 180)]),
     ("Toxopid", [("Silicon", 1000), ("Plastanium", 600), ("Surge alloy", 500),
       ("Phase fabric", 350), ("Cryofluid", 180)]),
     ("Eclipse", [("Silicon", 1000), ("Plastanium", 600), ("Surge alloy", 500),
       ("Phase fabric", 350), ("Cryofluid", 180)]),
     ("Oct", [("Silicon", 1000), ("Plastanium", 600), ("Surge alloy", 500),
       ("Phase fabric", 350), ("Cryofluid", 180)]),
     ("Omura", [("Silicon", 1000), ("Plastanium", 600), ("Surge alloy", 500),
       ("Phase fabric", 350), ("Cryofluid", 180)]),
     ("Navanax", [("Silicon", 1000), ("Plastanium", 600), ("Surge alloy", 500),
       ("Phase fabric", 350), ("Cryofluid", 180)])]
    (.same 240))]

/-- Segment of `Data.blocks` (wall/container blocks and Erekir unit-factory entries); the list is split only to keep
elaboration fast, `blocks` below is the concatenation in source order. -/
def blocksD : List Block := [
  .simple "Large Beryllium Wall" 1 0,
  .simple "Large Tungsten Wall" 1 0,
  .simple "Large Carbide Wall" 1 0,
  .simple "Large Reinforced Surge Wall" 1 0,
  .simple "Reinforced Container" 1 0,
  .simple "Reinforced Liquid Container" 1 0,
  .simple "Beam Node" 1 0,
  .unitFactory (mkUnitFactory "Constructor" 1 120
    [("Large Beryllium Wall", none), ("Large Tungsten Wall", none),
     ("Large Carbide Wall", none), ("Large Reinforced Surge Wall", none),
     ("Reinforced Container", none), ("Reinforced Liquid Container", none),
     ("Beam Node", none)]
    [("Large Beryllium Wall", [("Beryllium", 24)]),
     ("Large Tungsten Wall", [("Tungsten", 24)]),
     ("Large Carbide Wall", [("Carbide", 24), ("Thorium", 24)]),
     ("Large Reinforced Surge Wall", [("Surge alloy", 24), ("Tungsten", 8)]),
     ("Reinforced Container", [("Graphite", 40), ("Tungsten", 30)]),
     ("Reinforced Liquid Container", [("Beryllium", 16), ("Tungsten", 10)]),
     ("Beam Node", [("Beryllium", 8)])]
    (.per [("Large Beryllium Wall", 2.4), ("Large Tungsten Wall", 3),
      ("Large Carbide Wall", 6), ("Large Reinforced Surge Wall", 4.08),
      ("Reinforced Container", 1.41), ("Reinforced Liquid Container", 0.57),
      ("Beam Node", 0.25)])),
  .unitFactory (mkUnitFactory "Tank Fabricator" 1 90 [("Stell", none)]
    [("Stell", [("Beryllium", 40), ("Silicon", 50)])] (.same 35)),
  .unitFactory (mkUnitFactory "Ship Fabricator" 1 90 [("Elude", none)]
    [("Elude", [("Graphite", 50), ("Silicon", 70)])] (.same 40)),
  .unitFactory (mkUnitFactory "Mech Fabricator" 1 90 [("Merui", none)]
    [("Merui", [("Beryllium", 50), ("Silicon", 70)])] (.same 40)),
  .unitFactory (mkUnitFactory "Tank Refabricator" 1 180 [("Locus", some "Stell")]
    [("Locus", [("Silicon", 40), ("Tungsten", 30), ("Hydrogen", 3)])] (.same 30)),
  .unitFactory (mkUnitFactory "Ship Refabricator" 1 150 [("Avert", some "Elude")]
    [("Avert", [("Silicon", 60), ("Tungsten", 40), ("Hydrogen", 3)])] (.same 50)),
  .unitFactory (mkUnitFactory "Mech Refabricator" 1 150 [("Cleroi", some "Merui")]
    [("Cleroi", [("Silicon", 50), ("Tungsten", 40), ("Hydrogen", 3)])] (.same 45)),
  .unitFactory (mkUnitFactory "Prime Refabricator" 1 270
    [("Precept", some "Locus"), ("Obviate", some "Cleroi"),
     ("Anthicus", some "Avert")]
    [("Precept", [("Silicon", 100), ("Thorium", 80), ("Nitrogen", 10)]),
     ("Obviate", [("Silicon", 100), ("Thorium", 80), ("Nitrogen", 10)]),
     ("Anthicus", [("Silicon", 100), ("Thorium", 80), ("Nitrogen", 10)])]
    (.same 60)),
  .unitFactory tankAssembler,
  .unitFactory (mkUnitFactory "Ship Assembler" 1 180
    [("Quell", none), ("Disrupt", none)]
    [("Quell", [("Elude", 4), ("Large Beryllium Wall", 12), ("Cyanogen", 12)]),
     ("Disrupt", [("Avert", 6), ("Large Carbide Wall", 20), ("Cyanogen", 12)])]
    (.per [("Quell", 60), ("Disrupt", 180)])),
  .unitFactory (mkUnitFactory "Mech Assembler" 1 210
    [("Tecta", none), ("Collaris", none)]
    [("Tecta", [("Merui", 5), ("Large Tungsten Wall", 12), ("Cyanogen", 12)]),
     ("Collaris", [("Cleroi", 6), ("Large Carbide Wall", 20), ("Cyanogen", 12)])]
    (.per [("Tecta", 70), ("Collaris", 180)]))]

/-- Segment of `Data.blocks` (extractor factory and drill entries); the list is split only to keep
elaboration fast, `blocks` below is the concatenation in source order. -/
def blocksE : List Block := [
  .factory (mkFactory "Water Extractor" 0 90 [] [("Water", 6.6)] 60 none),
  .factory (mkFactory "Cultivator" 0 80 [("Water", 18)] [("Spore pod", 1)] 80 none),
  .factory (mkFactory "Oil Extractor" 0 180 [("Water", 9), ("Sand", 1)]
    [("Oil", 15)] 60 none),
  .factory (mkFactory "Vent Condenser" 1 30 [] [("Water", 30)] 60 none),
  mkDrill "Mechanical Drill" 0 0 []
    [("Sand", 0.40), ("Scrap", 0.40), ("Copper", 0.36), ("Lead", 0.36),
     ("Coal", 0.34)] (some ("Water", 3, 2.56)),
  mkDrill "Pneumatic Drill" 0 0 []
    [("Sand", 0.6), ("Scrap", 0.6), ("Copper", 0.53), ("Lead", 0.53),
     ("Coal", 0.47), ("Titanium", 0.43)] (some ("Water", 3.6, 2.56)),
  mkDrill "Laser Drill" 0 66 []
    [("Sand", 1.92), ("Scrap", 1.92), ("Copper", 1.63), ("Lead", 1.63),
     ("Coal", 1.42), ("Titanium", 1.25), ("Thorium", 1.12)]
    (some ("Water", 4.8, 2.56)),
  mkDrill "Airblast Drill" 0 180 []
    [("Sand", 3.42), ("Scrap", 3.42), ("Copper", 2.90), ("Lead", 2.90),
     ("Coal", 2.52), ("Titanium", 2.23), ("Thorium", 2.00)]
    (some ("Water", 6, 3.24)),
  mkDrill "Plasma Bore" 1 9 [] [("Beryllium", 0.75), ("Graphite", 0.75)]
    (some ("Hydrogen", 0.25, 2.5)),
  mkDrill "Advanced Plasma Bore" 1 48 [("Hydrogen", 0.5)]
    [("Beryllium", 1.8), ("Graphite", 1.8), ("Tungsten", 1.8), ("Thorium", 1.8)]
    (some ("Nitrogen", 3, 2.5)),
  mkDrill "Cliff Crusher" 1 11 [] [("Sand", 1.09)] none,
  mkDrill "Advanced Cliff Crusher" 1 60 [("Hydrogen", 1)] [("Sand", 3.75)]
    (some ("Graphite", 0.75, 1.6)),
  mkDrill "Impact Drill" 1 160 [("Water", 10)]
    [("Beryllium", 2.66), ("Tungsten", 1.33)] (some ("Ozone", 3, 1.75)),
  mkDrill "Eruption Drill" 1 360 [("Hydrogen", 4)]
    [("Beryllium", 10.66), ("Tungsten", 5.33), ("Thorium", 5.33)]
    (some ("Cyanogen", 0.75, 2))]

/-- The `Data.blocks` list, entry for entry in source order. -/
def blocks : List Block := blocksA ++ blocksB ++ blocksC ++ blocksD ++ blocksE

/-- The `Data.resources` list, entry for entry in source order (producer
lists and images omitted; the `allDrills` / `allPumps` flags only extend
those omitted lists). -/
def resources : List Resource := [
  .item "Copper" 0 true true,
  .item "Lead" 0 true true,
  .item "Metaglass" 0 false false,
  .item "Graphite" 0 false false,
  .item "Sand" 0 true true,
  .item "Coal" 0 true true,
  .item "Titanium" 0 true false,
  .item "Thorium" 0 true false,
  .item "Scrap" 0 true true,
  .item "Silicon" 0 false false,
  .item "Plastanium" 0 false false,
  .item "Phase fabric" 0 false false,
  .item "Surge alloy" 0 false false,
  .item "Spore pod" 0 false false,
  .item "Pyratite" 0 false false,
  .item "Blast compound" 0 false false,
  .item "Graphite" 1 true false,
  .item "Sand" 1 true false,
  .item "Thorium" 1 true false,
  .item "Silicon" 1 false false,
  .item "Phase fabric" 1 false false,
  .item "Surge alloy" 1 false false,
  .item "Beryllium" 1 true false,
  .item "Tungsten" 1 true false,
  .item "Oxide" 1 false false,
  .item "Carbide" 1 false false,
  .fluid "Water" 0 false true,
  .fluid "Oil" 0 false true,
  .fluid "Slag" 0 false true,
  .fluid "Cryofluid" 0 false true,
  .fluid "Water" 1 false false,
  .fluid "Slag" 1 false true,
  .fluid "Arkycite" 1 false true,
  .fluid "Neoplasm" 1 false false,
  .fluid "Hydrogen" 1 true false,
  .fluid "Ozone" 1 true false,
  .fluid "Nitrogen" 1 true false,
  .fluid "Cyanogen" 1 true false]

/-- The `Data.units` list, entry for entry in source order. -/
def units : List UnitData := [
  ⟨"Dagger", 0⟩, ⟨"Mace", 0⟩, ⟨"Fortress", 0⟩, ⟨"Scepter", 0⟩, ⟨"Reign", 0⟩,
  ⟨"Crawler", 0⟩, ⟨"Atrax", 0⟩, ⟨"Spiroct", 0⟩, ⟨"Arkyid", 0⟩, ⟨"Toxopid", 0⟩,
  ⟨"Nova", 0⟩, ⟨"Pulsar", 0⟩, ⟨"Quasar", 0⟩, ⟨"Vela", 0⟩, ⟨"Corvus", 0⟩,
  ⟨"Flare", 0⟩, ⟨"Horizon", 0⟩, ⟨"Zenith", 0⟩, ⟨"Antumbra", 0⟩, ⟨"Eclipse", 0⟩,
  ⟨"Mono", 0⟩, ⟨"Poly", 0⟩, ⟨"Mega", 0⟩, ⟨"Quad", 0⟩, ⟨"Oct", 0⟩,
  ⟨"Risso", 0⟩, ⟨"Minke", 0⟩, ⟨"Bryde", 0⟩, ⟨"Sei", 0⟩, ⟨"Omura", 0⟩,
  ⟨"Retusa", 0⟩, ⟨"Oxynoe", 0⟩, ⟨"Cyerce", 0⟩, ⟨"Aegires", 0⟩, ⟨"Navanax", 0⟩,
  ⟨"Stell", 1⟩, ⟨"Locus", 1⟩, ⟨"Precept", 1⟩, ⟨"Vanquish", 1⟩, ⟨"Conquer", 1⟩,
  ⟨"Merui", 1⟩, ⟨"Cleroi", 1⟩, ⟨"Anthicus", 1⟩, ⟨"Tecta", 1⟩, ⟨"Collaris", 1⟩,
  ⟨"Elude", 1⟩, ⟨"Avert", 1⟩, ⟨"Obviate", 1⟩, ⟨"Quell", 1⟩, ⟨"Disrupt", 1⟩]

/-- The three global catalogs of the `Data` module together. -/
def catalog : Catalog := ⟨blocks, resources, units⟩

end Data

/-- `Data.find_resource(name, planet)`: the first catalog resource matching
both name and planet, else `ValueError`. -/
def find_resource (cat : Catalog) (name : String) (planet : ℕ) :
    Except Err Resource :=
  match cat.resources.find? (fun r => r.name == name && r.planet == planet) with
  | some r => .ok r
  | none => .error (.resourceNotFound name)

/-- `Data.find_resource_type(name)`: `"Item"` or `"Fluid"` for the first
catalog resource with that name (planet-agnostic), else `ValueError`. -/
def find_resource_type (cat : Catalog) (name : String) : Except Err String :=
  match cat.resources.find? (fun r => r.name == name) with
  | some r => .ok (if r.isItem then "Item" else "Fluid")
  | none => .error (.resourceNotFound name)

/-- `Data.find_unit(name)`: the first catalog unit with that name, else
`ValueError`. -/
def find_unit (cat : Catalog) (name : String) : Except Err UnitData :=
  match cat.units.find? (fun u => u.name == name) with
  | some u => .ok u
  | none => .error (.unitNotFound name)

/-- `Logic.find_producer_unit(unit)`: the first `UnitFactory` in
`Data.blocks` whose `trees` has the unit's name as a key, or `None`. -/
def find_producer_unit (blocks : List Block) (u : UnitData) : Option UFData :=
  blocks.findSome? (fun b =>
    match b with
    | .unitFactory f => if f.trees.hasKey u.name then some f else none
    | _ => none)

/-- The loop of `Logic.find_upgrade_path`, bounded by fuel.  Each iteration
appends `find_producer_unit(path[-1])` (possibly `None`) to `factories`;
reading `trees` off a `None` factory is Python's `AttributeError`.  The
`try`/`except ValueError` around `Data.find_unit(factories[-1].trees[...])`
turns both a `None` tree value and an unknown predecessor name into a `break`
that returns the lists built so far — in particular, the loop exits before a
`None` sentinel is ever appended to `path`. -/
def upgradeLoop (cat : Catalog) :
    ℕ → List (Option UnitData) → List (Option UFData) →
    Except Err (List (Option UnitData) × List (Option UFData))
  | 0, _, _ => .error .fuelExhausted
  | n + 1, path, factories =>
    match path.getLast? with
    | some (some u) =>
      let f? := find_producer_unit cat.blocks u
      let factories := factories ++ [f?]
      match f? with
      | none => .error .attributeError
      | some f =>
        match f.trees.get? u.name with
        | none => .error (.keyError u.name)
        | some none => .ok (path, factories)
        | some (some predName) =>
          match find_unit cat predName with
          | .error _ => .ok (path, factories)
          | .ok pu => upgradeLoop cat n (path ++ [some pu]) factories
    | _ => .ok (path, factories)

/-- `Logic.find_upgrade_path(unit)`: the unit sequence from the target down
and the producing factory recorded at each step. -/
def find_upgrade_path (cat : Catalog) (fuel : ℕ) (u : UnitData) :
    Except Err (List (Option UnitData) × List (Option UFData)) :=
  upgradeLoop cat fuel [some u] []

/-- `Data.Turret.fire_rate(bullet, coolant, heat)`.  The heat-scaling branch
fires only for a truthy (nonzero) heat; it takes precedence over the coolant
branch, which needs a truthy coolant name present in the coolant table and
divides the reload time by the table entry's second component. -/
def TurretData.fire_rate (t : TurretData) (bullet coolant : Option String)
    (heat : ℚ) : Except Err ℚ := do
  let effectiveReload ←
    match t.heatScaling, heat != 0 with
    | some (maxMult, expr), true =>
      let multiplier := min (evalHeat expr heat) maxMult
      pure (t.reloadTime / multiplier)
    | _, _ =>
      match coolant with
      | some c =>
        match t.coolant with
        | some table =>
          if c ≠ "" && table.hasKey c then
            match table.get? c with
            | some coolantInfo => pure (t.reloadTime / coolantInfo.2)
            | none => pure t.reloadTime
          else pure t.reloadTime
        | none => pure t.reloadTime
      | none => pure t.reloadTime
  let burstTime := effectiveReload + t.intraBurstDelay * (t.burst - 1)
  let burstTimeSeconds := burstTime / 60
  if !t.isFluidAmmo && t.heatScaling = none then do
    let entry ← match bullet with
      | some b =>
        match t.ammo.get? b with
        | some e => pure e
        | none => throw (.keyError b)
      | none => throw (.keyError "None")
    let (rateMult, ammoPer) ← match entry with
      | .pair m p => pure (m, p)
      | .flat _ => throw .typeError
    let used_ammo := if t.consumeAmmoOnce then t.ammoUse else t.ammoUse * t.burst
    pure (used_ammo * rateMult / (burstTimeSeconds * ammoPer))
  else
    pure (1 / burstTimeSeconds)

/-- Python's `resource is Fluid` inside `Factory.output_rate.scale_recipe`:
`find_resource` returns a resource *instance*, and an instance is never
identical (`is`) to the *class* `Fluid`, so the comparison is always false. -/
def resourceIsFluidClass (_ : Resource) : Bool := false

/-- Python's `resource == 'heat'` / `== 'power'` in the same condition: a
`Resource` instance compared with `==` to a plain string, without an `__eq__`
override, is always false. -/
def resourceEqString (_ : Resource) (_ : String) : Bool := false

/-- The `scale_recipe` closure of `Data.Factory.output_rate`: each recipe key
is looked up with `find_resource(key, self.planet)` (an unknown key raises
`ValueError`); the always-false instance comparisons mean every entry takes
the `60 * value / effTime` branch. -/
def scale_recipe (cat : Catalog) (planet : ℕ) (recipe : Dict ℚ) (mult effTime : ℚ) :
    Except Err (Dict ℚ) :=
  recipe.foldlM (fun (acc : Dict ℚ) kv => do
    let r ← find_resource cat kv.1 planet
    if resourceIsFluidClass r || resourceEqString r "heat" ||
        resourceEqString r "power" then
      pure (acc.setVal kv.1 (kv.2 * mult))
    else
      pure (acc.setVal kv.1 (60 * kv.2 / effTime))) []

/-- `Data.Factory.output_rate(heat)`: the `{'Inputs': …, 'Outputs': …}`
result is modelled as the pair (inputs, outputs). -/
def FactoryData.output_rate (cat : Catalog) (f : FactoryData) (heat : ℚ) :
    Except Err (Dict ℚ × Dict ℚ) := do
  let (multiplier, effectiveTime) :=
    match f.heatScaling, heat != 0 with
    | some (maxMult, expr), true =>
      let m := min (evalHeat expr heat) maxMult
      (m, f.time / m)
    | _, _ => (1, f.time)
  let scaledInputs ← scale_recipe cat f.planet f.inputs multiplier effectiveTime
  let scaledOutputs ← scale_recipe cat f.planet f.outputs multiplier effectiveTime
  pure (scaledInputs, scaledOutputs)

/-- The head of `Logic.calculate_factory_count`: the output name, inferred
as the factory's single output when none is given (`next(iter(outputs))`),
with a `ValueError` for an unnamed output on a multi-output factory. -/
def resolveOutputName (factory : FactoryData) (outputResource : Option String) :
    Except Err String :=
  if factory.outputs.length = 1 then
    match outputResource with
    | none =>
      match factory.outputs.head? with
      | some kv => .ok kv.1
      | none => .error (.multipleOutputs factory.name)
    | some o => .ok o
  else
    match outputResource with
    | none => .error (.multipleOutputs factory.name)
    | some o => .ok o

/-- `Logic.calculate_factory_count(factory, outputRate, outputResource)`:
resolve the output name, check it is produced, then divide — fluids
directly, items normalized by cycle time.  The `find_resource_type` lookup
propagates its `ValueError` (the name may be produced by the factory yet
absent from the resource catalog). -/
def calculate_factory_count (cat : Catalog) (factory : FactoryData)
    (outputRate : ℚ) (outputResource : Option String) : Except Err ℚ := do
  let outputs := factory.outputs
  let resolved ← resolveOutputName factory outputResource
  if !outputs.hasKey resolved then
    throw (.notProducedBy resolved factory.name)
  let rate_per_factory := outputs.getD resolved 0
  let rType ← find_resource_type cat resolved
  if rType = "Fluid" then
    pure (outputRate / rate_per_factory)
  else
    pure (outputRate * factory.time / (rate_per_factory * 60))

/-- One entry of the resolver's `pending` work list:
`(unitName, effectiveRate, ratioSoFar, prevTime)`. -/
structure PendingE : Type where
  name : String
  effRate : ℚ
  ratioAcc : ℚ
  prevTime : ℚ
deriving DecidableEq

/-- The mutable state of `calculate_process_inputs.expand`: the shared
resource ledger and pending list, plus the loop-local `ratio` and `prevTime`.
`pending` is kept most-recent-first, so Python's `list.append` is a cons and
`list.pop()` takes the head. -/
structure ExpSt : Type where
  led : Dict ℚ
  pending : List PendingE
  ratioAcc : ℚ
  prevTime : Option ℚ
deriving DecidableEq

/-- The body of the `for name, amount in factory.recipes[u.name].items()`
loop in `calculate_process_inputs.expand`: the `try`/`except ValueError`
around `find_resource_type` maps a lookup failure to `None`; an ingredient
with a recognized resource kind is accumulated into the ledger (divided by
the build time unless it is a Fluid), any other ingredient is pushed onto
`pending` with the carried-forward state. -/
def ingredientStep (cat : Catalog) (rate ratioAcc t : ℚ)
    (acc : Dict ℚ × List PendingE) (ing : String × ℚ) :
    Dict ℚ × List PendingE :=
  let rType : Option String :=
    match find_resource_type cat ing.1 with
    | .ok ty => some ty
    | .error _ => none
  let rateMulti : ℚ := if rType == some "Fluid" then 1 else t
  match rType with
  | some _ =>
    (acc.1.setVal ing.1 (acc.1.getD ing.1 0 + ing.2 * ratioAcc * rate / rateMulti),
     acc.2)
  | none =>
    (acc.1, ⟨ing.1, ing.2 * ratioAcc * rate / rateMulti, ratioAcc, t⟩ :: acc.2)

/-- One iteration of the `for i, u in enumerate(path)` loop in
`calculate_process_inputs.expand`, for `u = pair.1` and
`factory = factories[i] = pair.2`.  A `None` factory or unit fails with
`AttributeError` at its first attribute access, exactly where Python would;
the `try`/`except ValueError` around `find_resource_type` maps its failure to
`None` (`Option.toOption` of the `Except`); an ingredient with a recognized
resource kind is accumulated into the ledger, any other ingredient is pushed
onto `pending` with the carried-forward state. -/
def stepTier (cat : Catalog) (rate : ℚ) (st : ExpSt)
    (pair : Option UnitData × Option UFData) : Except Err ExpSt :=
  match pair.2 with
  | none => .error .attributeError
  | some factory =>
    let tRes : Except Err ℚ :=
      match factory.time with
      | .same t => .ok t
      | .per d =>
        match pair.1 with
        | none => .error .attributeError
        | some u =>
          match d.get? u.name with
          | some t => .ok t
          | none => .error (.keyError u.name)
    match tRes with
    | .error e => .error e
    | .ok t =>
      let ratioAcc := match st.prevTime with
        | some pt => st.ratioAcc * (t / pt)
        | none => st.ratioAcc
      let led := st.led.setVal "power"
        (st.led.getD "power" 0 + factory.power * rate * ratioAcc)
      match pair.1 with
      | none => .error .attributeError
      | some u =>
        match factory.recipes.get? u.name with
        | none => .error (.keyError u.name)
        | some recipe =>
          let (led, pending) := recipe.foldl (ingredientStep cat rate ratioAcc t)
            (led, st.pending)
          .ok ⟨led, pending, ratioAcc, some t⟩

/-- `calculate_process_inputs.expand(unit, rate, ratio, prevTime)`: fetch the
upgrade path, convert the rate to per-second once, then walk the tiers.
`find_upgrade_path` always returns `path` and `factories` of equal length
(the loop appends to both or breaks), so the index-aligned Python loop is a
fold over their zip. -/
def expand (cat : Catalog) (fuel : ℕ) (led : Dict ℚ) (pending : List PendingE)
    (u : UnitData) (rate0 ratioAcc : ℚ) (prevTime : Option ℚ) :
    Except Err (Dict ℚ × List PendingE) := do
  let (path, factories) ← find_upgrade_path cat fuel u
  let rate := rate0 / 60
  let st ← (path.zip factories).foldlM (stepTier cat rate)
    (⟨led, pending, ratioAcc, prevTime⟩ : ExpSt)
  pure (st.led, st.pending)

/-- The `while pending:` drain loop of `calculate_process_inputs`: pop the
most recent entry, look its name up as a unit (`ValueError` propagates), and
expand it with the carried state, the per-second effective rate converted
back to per-minute. -/
def drain (cat : Catalog) (fuel : ℕ) :
    ℕ → Dict ℚ → List PendingE → Except Err (Dict ℚ)
  | 0, led, pending =>
    match pending with
    | [] => .ok led
    | _ => .error .fuelExhausted
  | n + 1, led, pending =>
    match pending with
    | [] => .ok led
    | pe :: rest => do
      let u ← find_unit cat pe.name
      let (led, pending) ← expand cat fuel led rest u (pe.effRate * 60)
        pe.ratioAcc (some pe.prevTime)
      drain cat fuel n led pending

/-- `Logic.calculate_process_inputs(unit, rate)`: the ledger starts as
`{"power": 0}`, the root unit is expanded with ratio 1 and no previous time,
then the pending list is drained. -/
def calculate_process_inputs (cat : Catalog) (fuel : ℕ) (u : UnitData)
    (rate : ℚ) : Except Err (Dict ℚ) := do
  let led : Dict ℚ := [("power", 0)]
  let (led, pending) ← expand cat fuel led [] u rate 1 none
  drain cat fuel fuel led pending

-- Decidable equality for `Except` results, used to evaluate the embedded
-- functions at concrete inputs inside proofs.
deriving instance DecidableEq for Except

/-- The ledger entry a resolution result holds for a key, if the resolution
succeeded and the key is present. -/
def ledgerEntry (r : Except Err (Dict ℚ)) (k : String) : Option ℚ :=
  match r with
  | .ok l => l.get? k
  | .error _ => none

/-- Whether a resolution result is the unit-lookup `ValueError` of
`Data.find_unit`. -/
def isUnitNotFound (r : Except Err (Dict ℚ)) : Bool :=
  match r with
  | .error (.unitNotFound _) => true
  | _ => false

/-- Whether the unit's producing factory lists a recipe ingredient that is
neither in the resource catalog nor in the unit catalog (for example
Vanquish's `'Large Tungsten Wall'`, a block built by the Constructor). -/
def hasOrphanIngredient (cat : Catalog) (u : UnitData) : Bool :=
  match find_producer_unit cat.blocks u with
  | some f =>
    match f.recipes.get? u.name with
    | some recipe =>
      recipe.any (fun ing =>
        (match find_resource_type cat ing.1 with
         | .ok _ => false
         | .error _ => true) &&
        (match find_unit cat ing.1 with
         | .ok _ => false
         | .error _ => true))
    | none => false
  | none => false

/-- Scale every value of a ledger by `c` (the shape of rate-linearity for
`calculate_process_inputs`). -/
def scaleLedger (c : ℚ) (m : Dict ℚ) : Dict ℚ :=
  m.map (fun kv => (kv.1, c * kv.2))

/-- Scale the effective rate of every pending entry by `c`. -/
def scalePending (c : ℚ) (l : List PendingE) : List PendingE :=
  l.map (fun p => ⟨p.name, c * p.effRate, p.ratioAcc, p.prevTime⟩)

/-- Scale the rate-linear parts of an `ExpSt` by `c`. -/
def scaleSt (c : ℚ) (st : ExpSt) : ExpSt :=
  ⟨scaleLedger c st.led, scalePending c st.pending, st.ratioAcc, st.prevTime⟩

namespace C1

/-- The root unit of the claim's two-tier example chain. -/
def rootUnit : UnitData := ⟨"RootUnit", 0⟩

/-- The upgraded unit of the claim's two-tier example chain. -/
def upgradedUnit : UnitData := ⟨"UpgradedUnit", 0⟩

/-- Factory A of the example: builds the root unit in 15 s from two item
ingredients (amounts 1 and 6). -/
def factoryA : UFData :=
  mkUnitFactory "Factory A" 0 0 [("RootUnit", none)]
    [("RootUnit", [("Alpha", 1), ("Beta", 6)])] (.same 15)

/-- Factory B of the example: builds the upgraded unit in 40 s, consuming
one root unit per build through its upgrade-tree edge. -/
def factoryB : UFData :=
  mkUnitFactory "Factory B" 0 0 [("UpgradedUnit", some "RootUnit")]
    [("UpgradedUnit", [])] (.same 40)

/-- The catalog of the claim's two-tier example: the two factories, the two
item ingredients of factory A, and the two units. -/
def exampleCatalog : Catalog :=
  ⟨[.unitFactory factoryB, .unitFactory factoryA],
   [.item "Alpha" 0 false false, .item "Beta" 0 false false],
   [rootUnit, upgradedUnit]⟩

end C1

namespace C8

/-- A factory carrying exactly the claim's heat-scaling rule
`(2.0, 'heat/10')` (the catalog's factories use maximum 4; among turrets,
Afflict carries exactly this rule). -/
def heatRuleFactory : FactoryData :=
  mkFactory "Heat Rule Factory" 0 0 [] [("Graphite", 1)] 90
    (some (2.0, .heatDiv 10))

end C8

unseal Rat.mul Rat.add Rat.inv Rat.sub Rat.ofScientific in
/-- C3: for the root unit Dagger, `find_upgrade_path` returns the unit alone
(no terminal `None` sentinel) paired with a factory list of the *same*
length 1 — against the claim's (and the function docstring's) promise of a
`None`-terminated path of length 2 with a factory list one shorter. -/
theorem claim_C3_code_evaluation :
    ((⟨"Dagger", 0⟩ : UnitData) ∈ Data.units) ∧
    find_upgrade_path Data.catalog 20 ⟨"Dagger", 0⟩ =
      .ok ([some ⟨"Dagger", 0⟩], [some Data.groundFactory]) := by
  decide

/-- C4 (amended): a unit with no producing factory does not terminate the
upgrade path with root semantics — `find_producer_unit` returns `None`,
`None` is appended to the factory list, and the `None.trees` attribute
access raises `AttributeError` out of `find_upgrade_path`. -/
theorem claim_C4_amended (u : UnitData) (n : ℕ)
    (h : find_producer_unit Data.catalog.blocks u = none) :
    find_upgrade_path Data.catalog (n + 1) u = .error .attributeError := by
  simp [find_upgrade_path, upgradeLoop, h]

/-- C4 witness: Mono is a catalog unit with no producer, and the theorem
applies to it. -/
theorem claim_C4_witness :
    find_upgrade_path Data.catalog 20 ⟨"Mono", 0⟩ = .error .attributeError :=
  claim_C4_amended ⟨"Mono", 0⟩ 19 (by decide)

unseal Rat.mul Rat.add Rat.inv Rat.sub Rat.ofScientific in
/-- C4 counterexample: Mono is a catalog unit whose name appears in no
UnitFactory tree, and `find_upgrade_path` fails on it with the `None`
attribute access instead of silently ending the chain like a root. -/
theorem claim_C4_counterexample :
    ((⟨"Mono", 0⟩ : UnitData) ∈ Data.units) ∧
    find_producer_unit Data.blocks ⟨"Mono", 0⟩ = none ∧
    find_upgrade_path Data.catalog 20 ⟨"Mono", 0⟩ = .error .attributeError := by
  decide

unseal Rat.mul Rat.add Rat.inv Rat.sub Rat.ofScientific in
/-- C7 counterexample: the Duo turret with coolant Water and ammo Copper
does not fire 3.6 items per second. -/
theorem claim_C7_counterexample :
    Data.duo.fire_rate (some "Copper") (some "Water") 0 ≠ .ok 3.6 := by
  decide

unseal Rat.mul Rat.add Rat.inv Rat.sub Rat.ofScientific in
/-- C7 (amended): the Duo turret (reload 20, burst 1, Water fire-rate
multiplier 1.2) with heat 0, coolant Water and ammo Copper (rate multiplier
1.0, ammo-per-shot 2) returns exactly the claim's formula
`(1 × 1.0) / ((20/1.2/60) × 2)` — whose value is 1.8 items/sec, not 3.6. -/
theorem claim_C7_amended :
    Data.duo.fire_rate (some "Copper") (some "Water") 0 =
      .ok (1 * 1.0 / ((20 / 1.2 / 60) * 2)) ∧
    (1 * 1.0 / ((20 / 1.2 / 60) * 2) : ℚ) = 1.8 := by
  decide

unseal Rat.mul Rat.add Rat.inv Rat.sub Rat.ofScientific in
/-- C8: the heat multiplier of rule `(2.0, heat/10)` is clamped to 2.0 at
heat 30 and is 0.5 unclamped at heat 5; in `Turret.fire_rate` (Afflict
carries exactly this rule) and in `Factory.output_rate` the effective
reload/cycle time is the nominal time divided by the clamped multiplier. -/
theorem claim_C8_heat_clamp :
    min (evalHeat (.heatDiv 10) 30) 2.0 = 2.0 ∧
    min (evalHeat (.heatDiv 10) 5) 2.0 = 0.5 ∧
    Data.afflict.heatScaling = some (2.0, .heatDiv 10) ∧
    Data.afflict.reloadTime = 100 ∧
    Data.afflict.fire_rate none none 30 = .ok (60 / (100 / 2)) ∧
    Data.afflict.fire_rate none none 5 = .ok (60 / (100 / 0.5)) ∧
    C8.heatRuleFactory.output_rate Data.catalog 30 =
      .ok ([], [("Graphite", 60 * 1 / (90 / 2))]) ∧
    C8.heatRuleFactory.output_rate Data.catalog 5 =
      .ok ([], [("Graphite", 60 * 1 / (90 / 0.5))]) := by
  decide

unseal Rat.mul Rat.add Rat.inv Rat.sub Rat.ofScientific in
/-- C2: the round-trip fails on the code: Spore Press has the single output
Oil (18 per 20-tick cycle); `output_rate` reports 54 (the discrete-item
`60·value/time` scaling — its fluid branch compares an instance against the
class `Fluid` and never fires), and feeding 54 back into
`calculate_factory_count` returns 3, not 1 (the fluid division by the raw
per-cycle amount 18). -/
theorem claim_C2_code_evaluation :
    (Block.factory Data.sporePress ∈ Data.blocks) ∧
    Data.sporePress.outputs.length = 1 ∧
    Data.sporePress.output_rate Data.catalog 0 =
      .ok ([("Spore pod", 3)], [("Oil", 54)]) ∧
    calculate_factory_count Data.catalog Data.sporePress 54 none = .ok 3 := by
  decide

unseal Rat.mul Rat.add Rat.inv Rat.sub Rat.ofScientific in
/-- C1 counterexample: in the two-tier example chain (root built in 15 s by
factory A with item amounts 1 and 6, upgraded unit built in 40 s by factory
B from one root unit), resolving the upgraded unit at 1/min does *not* give
factory A's ingredient of amount 1 the claimed value
`1 × (40/15) × (1/60) / 15`. -/
theorem claim_C1_counterexample :
    ledgerEntry (calculate_process_inputs C1.exampleCatalog 20 C1.upgradedUnit 1)
      "Alpha" ≠ some (1 * (40 / 15) * (1 / 60) / 15) := by
  decide

unseal Rat.mul Rat.add Rat.inv Rat.sub Rat.ofScientific in
/-- C1 (amended): the tier-2 ratio update multiplies by
`this tier's build time / previous tier's build time` = 15/40 (not 40/15),
so each item ingredient of factory A lands in the ledger with value
`ingredient_amount × (15/40) × (1/60) / 15`. -/
theorem claim_C1_amended :
    calculate_process_inputs C1.exampleCatalog 20 C1.upgradedUnit 1 =
      .ok [("power", 0), ("Alpha", 1 * (15 / 40) * (1 / 60) / 15),
        ("Beta", 6 * (15 / 40) * (1 / 60) / 15)] := by
  decide

/-- Monad-bind of an `Except.ok` value reduces to the continuation. -/
theorem except_bind_ok {ε α β : Type} (a : α) (f : α → Except ε β) :
    (Except.ok a >>= f : Except ε β) = f a := rfl

/-- Monad-bind of an `Except.error` short-circuits. -/
theorem except_bind_error {ε α β : Type} (e : ε) (f : α → Except ε β) :
    ((Except.error e : Except ε α) >>= f) = Except.error e := rfl

/-- `pure` of the `Except` monad is `Except.ok`. -/
theorem except_pure {ε α : Type} (a : α) : (pure a : Except ε α) = Except.ok a := rfl

/-- `Except.bind` on an `ok` value, stated on the structure function. -/
theorem except_bind_ok_fn {ε α β : Type} (a : α) (f : α → Except ε β) :
    Except.bind (Except.ok a) f = f a := rfl

/-- `Except.bind` on an `error` value, stated on the structure function. -/
theorem except_bind_error_fn {ε α β : Type} (e : ε) (f : α → Except ε β) :
    Except.bind (Except.error e : Except ε α) f = Except.error e := rfl

/-- C10: when a factory-count query's inferred or named output resolves to a
name the factory produces but the resource catalog lacks, the query
propagates the `NotFound` failure of `find_resource_type`, for every target
rate. -/
theorem claim_C10_uncataloged_output (f : FactoryData) (o? : Option String)
    (o : String) (r : ℚ)
    (h₁ : resolveOutputName f o? = .ok o)
    (h₂ : f.outputs.hasKey o = true)
    (h₃ : find_resource_type Data.catalog o = .error (.resourceNotFound o)) :
    calculate_factory_count Data.catalog f r o? = .error (.resourceNotFound o) := by
  simp only [calculate_factory_count, bind, h₁, except_bind_ok_fn, h₂, except_pure,
    except_bind_error_fn, h₃, Bool.not_true, Bool.false_eq_true, if_false, reduceIte]

/-- C10 witness: the Electric Heater's sole output `'Heat'` has no resource
catalog entry, and the factory-count query at rate 7 fails with the
`NotFound` error. -/
theorem claim_C10_witness :
    calculate_factory_count Data.catalog Data.electricHeater 7 none =
      .error (.resourceNotFound "Heat") :=
  claim_C10_uncataloged_output Data.electricHeater none "Heat" 7 (by decide)
    (by decide) (by decide)

/-- `Except.map` keeps errors. -/
theorem except_map_error {ε α β : Type} (f : α → β) (e : ε) :
    (Except.error e : Except ε α).map f = Except.error e := rfl

/-- `Except.map` on an `ok` value applies the function. -/
theorem except_map_ok {ε α β : Type} (f : α → β) (a : α) :
    (Except.ok a : Except ε α).map f = Except.ok (f a) := rfl

/-- Scaling a ledger leaves its key set unchanged. -/
theorem scaleLedger_hasKey (c : ℚ) (m : Dict ℚ) (k : String) :
    (scaleLedger c m).hasKey k = m.hasKey k := by
  simp only [scaleLedger, Dict.hasKey, List.any_map]
  rfl

/-- Looking a key up in a scaled ledger scales the looked-up value. -/
theorem scaleLedger_get? (c : ℚ) (m : Dict ℚ) (k : String) :
    (scaleLedger c m).get? k = (m.get? k).map (fun v => c * v) := by
  induction m with
  | nil => rfl
  | cons hd tl ih =>
    by_cases h : hd.1 == k
    · simp [scaleLedger, Dict.get?, List.find?_cons_of_pos, h]
    · simpa [scaleLedger, Dict.get?, List.find?_cons_of_neg, h] using ih

/-- Looking up with default 0 in a scaled ledger scales the result. -/
theorem scaleLedger_getD (c : ℚ) (m : Dict ℚ) (k : String) :
    (scaleLedger c m).getD k 0 = c * m.getD k 0 := by
  rw [Dict.getD, Dict.getD, scaleLedger_get?]
  cases m.get? k with
  | none => simp
  | some v => simp

/-- Writing a scaled value into a scaled ledger scales the write. -/
theorem scaleLedger_setVal (c : ℚ) (m : Dict ℚ) (k : String) (v : ℚ) :
    (scaleLedger c m).setVal k (c * v) = scaleLedger c (m.setVal k v) := by
  rw [Dict.setVal, Dict.setVal, scaleLedger_hasKey]
  by_cases h : m.hasKey k
  · simp only [h, if_true, scaleLedger, List.map_map]
    apply List.map_congr_left
    intro kv _
    by_cases hk : kv.1 == k <;> simp [hk, Function.comp]
  · simp [h, scaleLedger]

/-- One recipe-ingredient step is linear in the per-second rate: scaling the
rate by `c` scales the ledger write (or the pushed effective rate) by `c`. -/
theorem ingredientStep_scale (cat : Catalog) (c rate ratioAcc t : ℚ)
    (led : Dict ℚ) (pending : List PendingE) (ing : String × ℚ) :
    ingredientStep cat (c * rate) ratioAcc t
        (scaleLedger c led, scalePending c pending) ing =
      (fun p => (scaleLedger c p.1, scalePending c p.2))
        (ingredientStep cat rate ratioAcc t (led, pending) ing) := by
  unfold ingredientStep
  cases hrt : find_resource_type cat ing.1 with
  | ok ty =>
    simp only [hrt, scaleLedger_getD]
    have hval : c * led.getD ing.1 0 +
        ing.2 * ratioAcc * (c * rate) /
          (if (some ty == some "Fluid") = true then 1 else t) =
        c * (led.getD ing.1 0 +
          ing.2 * ratioAcc * rate /
            (if (some ty == some "Fluid") = true then 1 else t)) := by
      ring
    rw [hval, scaleLedger_setVal]
  | error e =>
    simp only [hrt, scalePending, List.map_cons]
    have hval : ing.2 * ratioAcc * (c * rate) /
        (if (none == some "Fluid") = true then 1 else t) =
        c * (ing.2 * ratioAcc * rate /
          (if (none == some "Fluid") = true then 1 else t)) := by
      ring
    rw [hval]

/-- The recipe fold of one tier is linear in the per-second rate. -/
theorem recipeFold_scale (cat : Catalog) (c rate ratioAcc t : ℚ)
    (recipe : Dict ℚ) :
    ∀ (led : Dict ℚ) (pending : List PendingE),
    recipe.foldl (ingredientStep cat (c * rate) ratioAcc t)
        (scaleLedger c led, scalePending c pending) =
      (fun p => (scaleLedger c p.1, scalePending c p.2))
        (recipe.foldl (ingredientStep cat rate ratioAcc t) (led, pending)) := by
  induction recipe with
  | nil => intro led pending; rfl
  | cons hd tl ih =>
    intro led pending
    simp only [List.foldl_cons]
    rw [ingredientStep_scale]
    have := ih (ingredientStep cat rate ratioAcc t (led, pending) hd).1
      (ingredientStep cat rate ratioAcc t (led, pending) hd).2
    simpa using this

/-- One tier of `expand` is linear in the per-second rate: with the
rate-linear parts of the state scaled by `c` and the rate scaled by `c`, the
tier produces the scaled state — and the very same error otherwise, since
which branch runs never depends on the rate. -/
theorem stepTier_scale (cat : Catalog) (c rate : ℚ) (st : ExpSt)
    (pair : Option UnitData × Option UFData) :
    stepTier cat (c * rate) (scaleSt c st) pair =
      (stepTier cat rate st pair).map (scaleSt c) := by
  unfold stepTier
  cases h2 : pair.2 with
  | none => rfl
  | some factory =>
    dsimp only [scaleSt]
    have hcore : ∀ t : ℚ,
        (match pair.1 with
         | none => (.error .attributeError : Except Err ExpSt)
         | some u =>
           match factory.recipes.get? u.name with
           | none => .error (.keyError u.name)
           | some recipe =>
             let ratioAcc := match st.prevTime with
               | some pt => st.ratioAcc * (t / pt)
               | none => st.ratioAcc
             let led := (scaleLedger c st.led).setVal "power"
               ((scaleLedger c st.led).getD "power" 0 +
                 factory.power * (c * rate) * ratioAcc)
             let p := recipe.foldl (ingredientStep cat (c * rate) ratioAcc t)
               (led, scalePending c st.pending)
             .ok ⟨p.1, p.2, ratioAcc, some t⟩) =
        Except.map (scaleSt c)
          (match pair.1 with
           | none => (.error .attributeError : Except Err ExpSt)
           | some u =>
             match factory.recipes.get? u.name with
             | none => .error (.keyError u.name)
             | some recipe =>
               let ratioAcc := match st.prevTime with
                 | some pt => st.ratioAcc * (t / pt)
                 | none => st.ratioAcc
               let led := st.led.setVal "power"
                 (st.led.getD "power" 0 + factory.power * rate * ratioAcc)
               let p := recipe.foldl (ingredientStep cat rate ratioAcc t)
                 (led, st.pending)
               .ok ⟨p.1, p.2, ratioAcc, some t⟩) := by
      intro t
      cases h1 : pair.1 with
      | none => rfl
      | some u =>
        dsimp only
        cases hr : factory.recipes.get? u.name with
        | none => rfl
        | some recipe =>
          dsimp only [except_map_ok]
          have hpow : (scaleLedger c st.led).setVal "power"
              ((scaleLedger c st.led).getD "power" 0 +
                factory.power * (c * rate) *
                  (match st.prevTime with
                   | some pt => st.ratioAcc * (t / pt)
                   | none => st.ratioAcc)) =
              scaleLedger c (st.led.setVal "power"
                (st.led.getD "power" 0 + factory.power * rate *
                  (match st.prevTime with
                   | some pt => st.ratioAcc * (t / pt)
                   | none => st.ratioAcc))) := by
            rw [scaleLedger_getD]
            have hval : c * st.led.getD "power" 0 +
                factory.power * (c * rate) *
                  (match st.prevTime with
                   | some pt => st.ratioAcc * (t / pt)
                   | none => st.ratioAcc) =
                c * (st.led.getD "power" 0 + factory.power * rate *
                  (match st.prevTime with
                   | some pt => st.ratioAcc * (t / pt)
                   | none => st.ratioAcc)) := by
              ring
            rw [hval, scaleLedger_setVal]
          rw [hpow, recipeFold_scale]
          rfl
    cases htime : factory.time with
    | same t => exact hcore t
    | per d =>
      cases h1 : pair.1 with
      | none => rfl
      | some u =>
        dsimp only
        cases hdt : d.get? u.name with
        | none => rfl
        | some t =>
          have h := hcore t
          rw [h1] at h
          exact h

/-- Walking a whole upgrade path is linear in the per-second rate. -/
theorem foldlM_stepTier_scale (cat : Catalog) (c rate : ℚ)
    (l : List (Option UnitData × Option UFData)) :
    ∀ st : ExpSt,
    l.foldlM (stepTier cat (c * rate)) (scaleSt c st) =
      (l.foldlM (stepTier cat rate) st).map (scaleSt c) := by
  induction l with
  | nil => intro st; rfl
  | cons hd tl ih =>
    intro st
    simp only [List.foldlM_cons]
    rw [stepTier_scale]
    cases h : stepTier cat rate st hd with
    | error e => rfl
    | ok st' =>
      simp only [except_map_ok, except_bind_ok]
      exact ih st'

/-- `expand` is linear in the requested rate: scaling the rate and the
rate-linear state by `c` scales the resulting ledger and pending list by
`c`, with identical error behaviour. -/
theorem expand_scale (cat : Catalog) (fuel : ℕ) (c : ℚ) (led : Dict ℚ)
    (pending : List PendingE) (u : UnitData) (r ratioAcc : ℚ)
    (prevTime : Option ℚ) :
    expand cat fuel (scaleLedger c led) (scalePending c pending) u (c * r)
        ratioAcc prevTime =
      (expand cat fuel led pending u r ratioAcc prevTime).map
        (fun p => (scaleLedger c p.1, scalePending c p.2)) := by
  unfold expand
  cases hp : find_upgrade_path cat fuel u with
  | error e => rfl
  | ok pf =>
    cases pf with
    | mk path factories =>
      simp only [except_bind_ok, bind, except_bind_ok_fn]
      have hrate : c * r / 60 = c * (r / 60) := by ring
      have hst : (⟨scaleLedger c led, scalePending c pending, ratioAcc,
          prevTime⟩ : ExpSt) =
          scaleSt c ⟨led, pending, ratioAcc, prevTime⟩ := rfl
      rw [hrate, hst, foldlM_stepTier_scale]
      cases hfold : (path.zip factories).foldlM (stepTier cat (r / 60))
          (⟨led, pending, ratioAcc, prevTime⟩ : ExpSt) with
      | error e => rfl
      | ok st' => rfl

/-- The pending-list drain is linear in the requested rate. -/
theorem drain_scale (cat : Catalog) (fuel : ℕ) (c : ℚ) :
    ∀ (n : ℕ) (led : Dict ℚ) (pending : List PendingE),
    drain cat fuel n (scaleLedger c led) (scalePending c pending) =
      (drain cat fuel n led pending).map (scaleLedger c) := by
  intro n
  induction n with
  | zero =>
    intro led pending
    cases pending with
    | nil => rfl
    | cons pe rest => rfl
  | succ n ih =>
    intro led pending
    cases pending with
    | nil => rfl
    | cons pe rest =>
      simp only [drain, scalePending, List.map_cons]
      cases hu : find_unit cat pe.name with
      | error e => rfl
      | ok u =>
        simp only [bind, except_bind_ok_fn]
        have hrate : c * pe.effRate * 60 = c * (pe.effRate * 60) := by ring
        have hpend : (List.map (fun p =>
            (⟨p.name, c * p.effRate, p.ratioAcc, p.prevTime⟩ : PendingE)) rest) =
            scalePending c rest := rfl
        rw [hrate, hpend, expand_scale]
        cases hex : expand cat fuel led rest u (pe.effRate * 60) pe.ratioAcc
            (some pe.prevTime) with
        | error e => rfl
        | ok lp =>
          cases lp with
          | mk led' pending' =>
            simp only [except_map_ok, except_bind_ok_fn]
            exact ih led' pending'

/-- `calculate_process_inputs` is linear in the requested rate: scaling the
rate by `c` scales every ledger entry by `c`, and the error behaviour (which
names are looked up, which lookups fail) does not depend on the rate at
all. -/
theorem calculate_process_inputs_scale (cat : Catalog) (fuel : ℕ)
    (u : UnitData) (c r : ℚ) :
    calculate_process_inputs cat fuel u (c * r) =
      (calculate_process_inputs cat fuel u r).map (scaleLedger c) := by
  unfold calculate_process_inputs
  dsimp only
  have h0 : (([("power", 0)] : Dict ℚ)) = scaleLedger c [("power", 0)] := by
    simp [scaleLedger]
  have h1 : ([] : List PendingE) = scalePending c [] := rfl
  conv_lhs => rw [h0, h1]
  rw [expand_scale]
  cases hex : expand cat fuel [("power", 0)] [] u r 1 none with
  | error e => rfl
  | ok lp =>
    cases lp with
    | mk led' pending' =>
      simp only [except_map_ok, bind, except_bind_ok_fn]
      exact drain_scale cat fuel c fuel led' pending'

/-- A Python dict write never removes a key that was already present. -/
theorem Dict.hasKey_setVal_mono {α : Type} (m : Dict α) (k k₀ : String) (v : α)
    (h : m.hasKey k₀ = true) : (m.setVal k v).hasKey k₀ = true := by
  unfold Dict.setVal
  by_cases hk : m.hasKey k
  · rw [if_pos hk]
    unfold Dict.hasKey at h ⊢
    rw [List.any_map]
    obtain ⟨kv, hmem, hkv⟩ := List.any_eq_true.mp h
    refine List.any_eq_true.mpr ⟨kv, hmem, ?_⟩
    by_cases hkk : kv.1 == k
    · have h1 : kv.1 = k := by simpa using hkk
      have h2 : kv.1 = k₀ := by simpa using hkv
      simp [Function.comp, hkk, ← h1, h2]
    · simp only [Function.comp_apply, hkk]
      simpa [hkk] using hkv
  · rw [if_neg hk]
    unfold Dict.hasKey at h ⊢
    rw [List.any_append]
    simp [h]

/-- One recipe-ingredient step never removes a ledger key. -/
theorem ingredientStep_hasKey (cat : Catalog) (rate ratioAcc t : ℚ)
    (led : Dict ℚ) (pending : List PendingE) (ing : String × ℚ) (k : String)
    (h : led.hasKey k = true) :
    (ingredientStep cat rate ratioAcc t (led, pending) ing).1.hasKey k = true := by
  unfold ingredientStep
  cases hrt : find_resource_type cat ing.1 with
  | ok ty => exact Dict.hasKey_setVal_mono led ing.1 k _ h
  | error e => exact h

/-- The recipe fold of one tier never removes a ledger key. -/
theorem recipeFold_hasKey (cat : Catalog) (rate ratioAcc t : ℚ)
    (recipe : Dict ℚ) :
    ∀ (led : Dict ℚ) (pending : List PendingE) (k : String),
    led.hasKey k = true →
    (recipe.foldl (ingredientStep cat rate ratioAcc t) (led, pending)).1.hasKey k
      = true := by
  induction recipe with
  | nil => intro led pending k h; exact h
  | cons hd tl ih =>
    intro led pending k h
    simp only [List.foldl_cons]
    have hstep := ingredientStep_hasKey cat rate ratioAcc t led pending hd k h
    have := ih (ingredientStep cat rate ratioAcc t (led, pending) hd).1
      (ingredientStep cat rate ratioAcc t (led, pending) hd).2 k hstep
    simpa using this

/-- One tier of `expand` never removes a ledger key. -/
theorem stepTier_hasKey (cat : Catalog) (rate : ℚ) (st : ExpSt)
    (pair : Option UnitData × Option UFData) (st' : ExpSt)
    (h : stepTier cat rate st pair = .ok st') (k : String)
    (hk : st.led.hasKey k = true) : st'.led.hasKey k = true := by
  unfold stepTier at h
  cases h2 : pair.2 with
  | none => rw [h2] at h; exact absurd h (by simp)
  | some factory =>
    rw [h2] at h
    dsimp only at h
    cases htr : (match factory.time with
      | .same t => (.ok t : Except Err ℚ)
      | .per d =>
        match pair.1 with
        | none => .error .attributeError
        | some u =>
          match d.get? u.name with
          | some t => .ok t
          | none => .error (.keyError u.name)) with
    | error e => rw [htr] at h; exact absurd h (by simp)
    | ok t =>
      rw [htr] at h
      cases h1 : pair.1 with
      | none => rw [h1] at h; exact absurd h (by simp)
      | some u =>
        rw [h1] at h
        dsimp only at h
        cases hr : factory.recipes.get? u.name with
        | none => rw [hr] at h; exact absurd h (by simp)
        | some recipe =>
          rw [hr] at h
          dsimp only at h
          have hok := Except.ok.inj h
          subst hok
          exact recipeFold_hasKey cat rate _ t recipe _ st.pending k
            (Dict.hasKey_setVal_mono st.led "power" k _ hk)

/-- Walking a whole upgrade path never removes a ledger key. -/
theorem foldlM_stepTier_hasKey (cat : Catalog) (rate : ℚ)
    (l : List (Option UnitData × Option UFData)) :
    ∀ (st st' : ExpSt), l.foldlM (stepTier cat rate) st = .ok st' →
    ∀ k, st.led.hasKey k = true → st'.led.hasKey k = true := by
  induction l with
  | nil =>
    intro st st' h k hk
    simp only [List.foldlM_nil, except_pure] at h
    rw [← Except.ok.inj h]
    exact hk
  | cons hd tl ih =>
    intro st st' h k hk
    simp only [List.foldlM_cons] at h
    cases hstep : stepTier cat rate st hd with
    | error e =>
      rw [hstep] at h
      simp only [bind, except_bind_error_fn] at h
      exact absurd h (by simp)
    | ok st₁ =>
      rw [hstep] at h
      simp only [bind, except_bind_ok_fn] at h
      exact ih st₁ st' h k (stepTier_hasKey cat rate st hd st₁ hstep k hk)

/-- `expand` never removes a ledger key. -/
theorem expand_hasKey (cat : Catalog) (fuel : ℕ) (led : Dict ℚ)
    (pending : List PendingE) (u : UnitData) (r ratioAcc : ℚ)
    (prevTime : Option ℚ) (led' : Dict ℚ) (pending' : List PendingE)
    (h : expand cat fuel led pending u r ratioAcc prevTime = .ok (led', pending'))
    (k : String) (hk : led.hasKey k = true) : led'.hasKey k = true := by
  unfold expand at h
  cases hp : find_upgrade_path cat fuel u with
  | error e =>
    rw [hp] at h
    simp only [bind, except_bind_error_fn] at h
    exact absurd h (by simp)
  | ok pf =>
    rw [hp] at h
    cases pf with
    | mk path factories =>
      simp only [bind, except_bind_ok_fn] at h
      cases hfold : (path.zip factories).foldlM (stepTier cat (r / 60))
          (⟨led, pending, ratioAcc, prevTime⟩ : ExpSt) with
      | error e =>
        rw [hfold] at h
        simp only [except_bind_error_fn] at h
        exact absurd h (by simp)
      | ok st' =>
        rw [hfold] at h
        simp only [except_bind_ok_fn, except_pure] at h
        have hled : st'.led = led' := congrArg Prod.fst (Except.ok.inj h)
        rw [← hled]
        exact foldlM_stepTier_hasKey cat (r / 60) (path.zip factories)
          ⟨led, pending, ratioAcc, prevTime⟩ st' hfold k hk

/-- The pending-list drain never removes a ledger key. -/
theorem drain_hasKey (cat : Catalog) (fuel : ℕ) :
    ∀ (n : ℕ) (led : Dict ℚ) (pending : List PendingE) (led' : Dict ℚ),
    drain cat fuel n led pending = .ok led' →
    ∀ k, led.hasKey k = true → led'.hasKey k = true := by
  intro n
  induction n with
  | zero =>
    intro led pending led' h k hk
    cases pending with
    | nil =>
      simp only [drain] at h
      rw [← Except.ok.inj h]; exact hk
    | cons pe rest => exact absurd h (by simp [drain])
  | succ n ih =>
    intro led pending led' h k hk
    cases pending with
    | nil =>
      simp only [drain] at h
      rw [← Except.ok.inj h]; exact hk
    | cons pe rest =>
      simp only [drain] at h
      cases hu : find_unit cat pe.name with
      | error e =>
        rw [hu] at h
        simp only [bind, except_bind_error_fn] at h
        exact absurd h (by simp)
      | ok u =>
        rw [hu] at h
        simp only [bind, except_bind_ok_fn] at h
        cases hex : expand cat fuel led rest u (pe.effRate * 60) pe.ratioAcc
            (some pe.prevTime) with
        | error e =>
          rw [hex] at h
          simp only [except_bind_error_fn] at h
          exact absurd h (by simp)
        | ok lp =>
          rw [hex] at h
          cases lp with
          | mk led₁ pending₁ =>
            simp only [except_bind_ok_fn] at h
            exact ih led₁ pending₁ led' h k
              (expand_hasKey cat fuel led rest u (pe.effRate * 60) pe.ratioAcc
                (some pe.prevTime) led₁ pending₁ hex k hk)

/-- Every ledger `calculate_process_inputs` returns contains the `"power"`
key (it is written before any tier is walked and never removed). -/
theorem calculate_process_inputs_hasPower (cat : Catalog) (fuel : ℕ)
    (u : UnitData) (r : ℚ) (m : Dict ℚ)
    (h : calculate_process_inputs cat fuel u r = .ok m) :
    m.hasKey "power" = true := by
  unfold calculate_process_inputs at h
  dsimp only at h
  cases hex : expand cat fuel [("power", 0)] [] u r 1 none with
  | error e =>
    rw [hex] at h
    simp only [bind, except_bind_error_fn] at h
    exact absurd h (by simp)
  | ok lp =>
    rw [hex] at h
    cases lp with
    | mk led' pending' =>
      simp only [bind, except_bind_ok_fn] at h
      exact drain_hasKey cat fuel fuel led' pending' m h "power"
        (expand_hasKey cat fuel [("power", 0)] [] u r 1 none led' pending' hex
          "power" (by rfl))

/-- A list equal to its own map is fixed pointwise. -/
theorem list_eq_map_self {α : Type} (f : α → α) :
    ∀ l : List α, l = l.map f → ∀ x ∈ l, x = f x := by
  intro l
  induction l with
  | nil => intro _ x hx; cases hx
  | cons hd tl ih =>
    intro h x hx
    simp only [List.map_cons, List.cons.injEq] at h
    cases hx with
    | head => exact h.1
    | tail _ hmem => exact ih h.2 x hmem

/-- C5 (amended): whenever `calculate_process_inputs` at requested rate 0
returns a ledger at all, that ledger contains the `"power"` key and every
entry in it is 0.  (The claim's universal form over *every* unit fails: for
some catalog units the call raises instead of returning.) -/
theorem claim_C5_amended (fuel : ℕ) (u : UnitData) (m : Dict ℚ)
    (h : calculate_process_inputs Data.catalog fuel u 0 = .ok m) :
    m.hasKey "power" = true ∧ ∀ kv ∈ m, kv.2 = 0 := by
  refine ⟨calculate_process_inputs_hasPower Data.catalog fuel u 0 m h, ?_⟩
  have hs := calculate_process_inputs_scale Data.catalog fuel u 0 0
  rw [show (0 : ℚ) * 0 = 0 by norm_num] at hs
  rw [h, except_map_ok] at hs
  have hm : m = m.map (fun kv => (kv.1, (0 : ℚ) * kv.2)) := Except.ok.inj hs
  intro kv hkv
  have hfix := list_eq_map_self (fun kv => (kv.1, (0 : ℚ) * kv.2)) m hm kv hkv
  have hv := congrArg Prod.snd hfix
  simpa using hv

unseal Rat.mul Rat.add Rat.inv Rat.sub Rat.ofScientific in
/-- C5 counterexample: Vanquish is a catalog unit for which
`calculate_process_inputs` at rate 0 raises the unit-lookup `ValueError`
(for its recipe ingredient `'Large Tungsten Wall'`) instead of returning an
all-zero ledger. -/
theorem claim_C5_counterexample :
    ((⟨"Vanquish", 1⟩ : UnitData) ∈ Data.units) ∧
    calculate_process_inputs Data.catalog 20 ⟨"Vanquish", 1⟩ 0 =
      .error (.unitNotFound "Large Tungsten Wall") := by
  decide

unseal Rat.mul Rat.add Rat.inv Rat.sub Rat.ofScientific in
/-- C5 witness: for the root unit Dagger the rate-0 resolution returns the
ledger `{"power": 0, "Silicon": 0, "Lead": 0}`, which the theorem shows has
the `"power"` key and only zero entries. -/
theorem claim_C5_witness :
    Dict.hasKey ([("power", 0), ("Silicon", 0), ("Lead", 0)] : Dict ℚ) "power"
      = true ∧
    ∀ kv ∈ ([("power", 0), ("Silicon", 0), ("Lead", 0)] : Dict ℚ), kv.2 = 0 :=
  claim_C5_amended 20 ⟨"Dagger", 0⟩
    [("power", 0), ("Silicon", 0), ("Lead", 0)] (by decide)

/-- C6: `calculate_process_inputs` is linear in the requested rate — doubling
the rate maps the result through doubling every ledger entry, identically in
the error cases, with no special-casing of zero or negative rates (the proof
is uniform in `r`). -/
theorem claim_C6_linearity (fuel : ℕ) (u : UnitData) (r : ℚ) :
    calculate_process_inputs Data.catalog fuel u (2 * r) =
      (calculate_process_inputs Data.catalog fuel u r).map (scaleLedger 2) :=
  calculate_process_inputs_scale Data.catalog fuel u 2 r

unseal Rat.mul Rat.add Rat.inv Rat.sub Rat.ofScientific in
/-- C9: every catalog unit whose producing factory's recipe lists an
ingredient that is neither a cataloged resource nor a cataloged unit makes
`calculate_process_inputs` fail with the unit-lookup `NotFound` error, at
every requested rate; the orphan ingredient is neither expanded nor
accumulated. -/
theorem claim_C9_orphan_ingredient (u : UnitData) (hu : u ∈ Data.units)
    (ho : hasOrphanIngredient Data.catalog u = true) (r : ℚ) :
    isUnitNotFound (calculate_process_inputs Data.catalog 20 u r) = true := by
  have hall : Data.units.all (fun v => !hasOrphanIngredient Data.catalog v ||
      isUnitNotFound (calculate_process_inputs Data.catalog 20 v 1)) = true := by
    decide
  have hv := List.all_eq_true.mp hall u hu
  rw [ho] at hv
  simp only [Bool.not_true, Bool.false_or] at hv
  have hr : calculate_process_inputs Data.catalog 20 u r =
      (calculate_process_inputs Data.catalog 20 u 1).map (scaleLedger r) := by
    have hs := calculate_process_inputs_scale Data.catalog 20 u r 1
    rwa [mul_one] at hs
  rw [hr]
  cases hres : calculate_process_inputs Data.catalog 20 u 1 with
  | ok m => rw [hres] at hv; exact absurd hv (by simp [isUnitNotFound])
  | error e =>
    rw [hres] at hv
    rw [except_map_error]
    exact hv

/-- C9 witness: Vanquish (whose Tank Assembler recipe lists
`'Large Tungsten Wall'`) is such a unit, at rate 5. -/
theorem claim_C9_witness :
    isUnitNotFound (calculate_process_inputs Data.catalog 20
      ⟨"Vanquish", 1⟩ 5) = true :=
  claim_C9_orphan_ingredient ⟨"Vanquish", 1⟩ (by decide) (by decide) 5
